import Mathlib

/-
  Verification development for the py_gch.h lazy-binding gc shim
  (repository py_gc_helpers).

  The shim keeps a process-wide table PYGCH_API_UNIQ_SYMBOL of 16 void *
  cells: cell 0 holds the imported gc module, odd cells 5/7/9/11/13 hold
  imported gc members (enable, disable, isenabled, collect, reserved),
  cell 15 holds a decoded flag value stored as an integer cast to void *,
  and the remaining cells hold C function pointers.  We embed the table,
  the host (CPython) resolution surface, and every accessor of the second
  (API-table) revision of py_gch.h, plus the first revision of
  PyGCH_gc_isenabled, as executable Lean functions.

  Modelling conventions:
  - a void * cell is a Word: either an integer value (num v, with num 0
    being the NULL pointer, exactly as in C where the flag value 0 cast to
    void * is the null pointer), an owned PyObject reference (obj h), or a
    C function pointer (fn name);
  - the host is a record of the foreign-call surface: module import,
    attribute lookup, integer decoding (PyLong_AsUnsignedLongMask) and
    callable invocation.  Invoking gc.collect while the error indicator is
    set is a fatal interpreter abort in CPython (documented in the
    repository README); the model records this in a fatalErr field;
  - the state logs every PyObject_GetAttrString call (attrLookups), every
    PyObject_CallObject call (calls) and every Py_DECREF of an attribute
    handle (released), so that claims about re-resolution, call
    conventions and reference release are observable;
  - tuple and int-object allocation (PyTuple_New, PyLong_FromSsize_t) are
    modelled as infallible, and Py_XDECREF of returned None/True/False
    singletons is not tracked, since no claim concerns them.
-/

namespace PyGCH

/-- Contents of one void * cell of the API table. -/
inductive Word where
  | num (v : Nat)
  | obj (h : Nat)
  | fn (name : String)
deriving DecidableEq, Repr

/-- Test of a void * cell against NULL: only the integer 0 is NULL; a
valid PyObject reference or a C function pointer is never NULL. -/
def isNull : Word → Bool
  | .num 0 => true
  | _ => false

/-- Reading a void * cell as a gcflag_t, the cast in gc_get_flag. -/
def wordVal : Word → Nat
  | .num v => v
  | .obj h => h
  | .fn _ => 1

/-- Python values returned by the wrapped callables. -/
inductive PyVal where
  | vnone
  | vbool (b : Bool)
  | vint (n : Int)
deriving DecidableEq, Repr

/-- Outcome of PyObject_CallObject on a resolved callable: a value plus
the new collector-enabled state, a raised exception, or a fatal
interpreter abort (gc.collect invoked with the error indicator set). -/
inductive CallRes where
  | ok (v : PyVal) (enabled : Bool)
  | exn (enabled : Bool)
  | fatal
deriving DecidableEq, Repr

/-- The host (CPython) foreign-call surface seen by the shim. -/
structure Host where
  modImport : Option Nat
  getattr : String → Option Nat
  intVal : Nat → Option Int
  call : Nat → List Int → Bool → Bool → CallRes

/-- State of the process: the 16-cell API table, the ambient Python error
indicator, the collector-enabled flag of the host, a fatal-abort flag,
and the instrumentation logs. -/
structure APIState where
  table : Fin 16 → Word
  err : Bool
  enabled : Bool
  fatalErr : Bool
  attrLookups : Nat
  calls : List (Nat × List Int)
  released : List Nat

/-- Write one cell of the API table. -/
def setSlot (s : APIState) (i : Fin 16) (w : Word) : APIState :=
  { s with table := Function.update s.table i w }

/-- Initial contents of PYGCH_API_UNIQ_SYMBOL: function pointers at the
even positions and at 1, 2, 3; NULL at 0, 5, 7, 9, 11, 13, 15. -/
def initTable : Fin 16 → Word := fun i =>
  if i.val = 1 then .fn "_PyGCH_FinalizeEx"
  else if i.val = 2 then .fn "gc_unique_import"
  else if i.val = 3 then .fn "gc_member_unique_import"
  else if i.val = 4 then .fn "gc_enable"
  else if i.val = 6 then .fn "gc_disable"
  else if i.val = 8 then .fn "gc_isenabled"
  else if i.val = 10 then .fn "gc_collect_gen"
  else if i.val = 12 then .fn "gc_COLLECT_GEN"
  else if i.val = 14 then .fn "gc_get_flag"
  else .num 0

/-- Process state at module load: table fresh, no error, collector
enabled (the CPython default), nothing logged. -/
def initState : APIState :=
  { table := initTable, err := false, enabled := true, fatalErr := false,
    attrLookups := 0, calls := [], released := [] }

/-- Embedding of gc_unique_import: if cell 0 is NULL, store the result of
PyImport_ImportModule("gc") there (NULL plus error indicator on failure);
return whether cell 0 is now non-NULL. -/
def gc_unique_import (host : Host) (s : APIState) : Bool × APIState :=
  let s1 :=
    if isNull (s.table 0) then
      match host.modImport with
      | some h => setSlot s 0 (.obj h)
      | none => { s with err := true }
    else s
  (!(isNull (s1.table 0)), s1)

/-- Embedding of gc_member_unique_import: import gc first (failure
propagates), treat an already non-NULL destination cell as success,
otherwise store the result of PyObject_GetAttrString in the cell (NULL
plus error indicator on failure). -/
def gc_member_unique_import (host : Host) (name : String) (i : Fin 16)
    (s : APIState) : Bool × APIState :=
  let r := gc_unique_import host s
  if r.1 then
    if isNull (r.2.table i) then
      let s2 := { r.2 with attrLookups := r.2.attrLookups + 1 }
      match host.getattr name with
      | some h => (true, setSlot s2 i (.obj h))
      | none => (false, { setSlot s2 i (.num 0) with err := true })
    else (true, r.2)
  else (false, r.2)

/-- Embedding of PyObject_CallObject on a cell: calling anything that is
not a valid object reference fails with an exception; calling a resolved
handle defers to the host call semantics and logs the invocation. -/
def callObject (host : Host) (w : Word) (args : List Int) (s : APIState) :
    Option PyVal × APIState :=
  match w with
  | .obj h =>
    let s1 := { s with calls := (h, args) :: s.calls }
    match host.call h args s.err s.enabled with
    | .ok v en => (some v, { s1 with enabled := en })
    | .exn en => (none, { s1 with enabled := en, err := true })
    | .fatal => (none, { s1 with fatalErr := true })
  | _ => (none, { s with err := true })

/-- Embedding of gc_enable (second revision): resolve gc.enable into cell
5, then invoke it with no arguments. -/
def gc_enable (host : Host) (s : APIState) : Option PyVal × APIState :=
  let r := gc_member_unique_import host "enable" 5 s
  if r.1 then callObject host (r.2.table 5) [] r.2
  else (none, r.2)

/-- Embedding of gc_disable (second revision): resolve gc.disable into
cell 7, then invoke it with no arguments. -/
def gc_disable (host : Host) (s : APIState) : Option PyVal × APIState :=
  let r := gc_member_unique_import host "disable" 7 s
  if r.1 then callObject host (r.2.table 7) [] r.2
  else (none, r.2)

/-- Embedding of gc_isenabled (second revision): resolve gc.isenabled
into cell 9, then invoke it with no arguments. -/
def gc_isenabled (host : Host) (s : APIState) : Option PyVal × APIState :=
  let r := gc_member_unique_import host "isenabled" 9 s
  if r.1 then callObject host (r.2.table 9) [] r.2
  else (none, r.2)

/-- Embedding of gc_collect_gen: resolve gc.collect into cell 11; invoke
it with no arguments when gen is -1, and with the single integer argument
gen otherwise.  The source contains no clearing of the error indicator
anywhere on this path. -/
def gc_collect_gen (host : Host) (gen : Int) (s : APIState) :
    Option PyVal × APIState :=
  let r := gc_member_unique_import host "collect" 11 s
  if r.1 then
    if gen = -1 then callObject host (r.2.table 11) [] r.2
    else callObject host (r.2.table 11) [gen] r.2
  else (none, r.2)

/-- Embedding of gc_COLLECT_GEN: run gc_collect_gen and convert the
resulting Python integer to a machine integer, -1 on any failure. -/
def gc_COLLECT_GEN (host : Host) (gen : Int) (s : APIState) :
    Int × APIState :=
  match gc_collect_gen host gen s with
  | (none, s1) => (-1, s1)
  | (some v, s1) =>
    match v with
    | .vint n => (n, s1)
    | _ => (-1, { s1 with err := true })

/-- The value that PyLong_AsUnsignedLongMask returns on conversion error,
which gc_get_flag compares the decoded flag against. -/
def ULMAX : Nat := 2 ^ 64 - 1

/-- Embedding of gc_get_flag: if the given cell is non-NULL, return its
value directly (fast path).  Otherwise resolve the attribute into the
cell, decode it with the masking conversion (value modulo 2 ^ 64 for an
integer attribute; the sentinel ULMAX with the error indicator set for a
non-integer), release the attribute handle and reset the cell to NULL,
then return 0 if the decoded value equals the sentinel, and otherwise
store the decoded value in the cell as an integer cast to void * and
return it.  Storing the value 0 writes the null pointer. -/
def gc_get_flag (host : Host) (name : String) (i : Fin 16) (s : APIState) :
    Nat × APIState :=
  if isNull (s.table i) then
    let r := gc_member_unique_import host name i s
    if r.1 then
      match r.2.table i with
      | .obj h =>
        let fp :=
          match host.intVal h with
          | some v => ((v % (2 ^ 64 : Int)).toNat, r.2)
          | none => (ULMAX, { r.2 with err := true })
        let s3 := setSlot { fp.2 with released := h :: fp.2.released } i (.num 0)
        if fp.1 = ULMAX then (0, s3)
        else (fp.1, setSlot s3 i (.num fp.1))
      | _ => (0, r.2)
    else (0, r.2)
  else (wordVal (s.table i), s)

/-- Embedding of the _PyGCH_NULLIFY_API macro: reset cells 0, 5, 7, 9,
11, 13 to NULL and leave every other cell untouched. -/
def nullifyAPI (s : APIState) : APIState :=
  { s with table := fun i =>
      if i.val = 0 ∨ i.val = 5 ∨ i.val = 7 ∨ i.val = 9 ∨ i.val = 11 ∨ i.val = 13
      then Word.num 0 else s.table i }

/-- Embedding of _PyGCH_FinalizeEx: run the real Py_FinalizeEx (whose
status is the parameter finalizeStatus), then nullify the API table, and
return the captured status unchanged. -/
def finalizeEx (finalizeStatus : Int) (s : APIState) : Int × APIState :=
  (finalizeStatus, nullifyAPI s)

/-
  First-revision shim (the top snapshot of py_gch.h): four global cells
  PyGCH_mod_o, PyGCH_enable_o, PyGCH_disable_o, PyGCH_isenabled_o.  Only
  the members needed by the claims are embedded.  The first-revision
  PyGCH_gc_isenabled resolves the member named "disable" into
  PyGCH_isenabled_o and then invokes PyGCH_disable_o, exactly as the C
  source reads.
-/

/-- State of the first-revision shim: the four global cells plus the same
host-side observables as APIState. -/
structure Rev1State where
  mod_o : Word
  enable_o : Word
  disable_o : Word
  isenabled_o : Word
  err : Bool
  enabled : Bool
  fatalErr : Bool
  attrLookups : Nat
  calls : List (Nat × List Int)

/-- First-revision state at module load: all four cells NULL. -/
def rev1Init : Rev1State :=
  { mod_o := .num 0, enable_o := .num 0, disable_o := .num 0,
    isenabled_o := .num 0, err := false, enabled := true,
    fatalErr := false, attrLookups := 0, calls := [] }

/-- Embedding of the first-revision PyGCH_gc_unique_import. -/
def rev1_gc_unique_import (host : Host) (s : Rev1State) : Bool × Rev1State :=
  let s1 :=
    if isNull s.mod_o then
      match host.modImport with
      | some h => { s with mod_o := .obj h }
      | none => { s with err := true }
    else s
  (!(isNull s1.mod_o), s1)

/-- Embedding of the first-revision PyGCH_gc_member_unique_import acting
on a destination cell passed by address: the result carries the new cell
value, which the caller stores back. -/
def rev1_gc_member_unique_import (host : Host) (name : String) (slotv : Word)
    (s : Rev1State) : Bool × Word × Rev1State :=
  let r := rev1_gc_unique_import host s
  if r.1 then
    if isNull slotv then
      let s2 := { r.2 with attrLookups := r.2.attrLookups + 1 }
      match host.getattr name with
      | some h => (true, .obj h, s2)
      | none => (false, .num 0, { s2 with err := true })
    else (true, slotv, r.2)
  else (false, slotv, r.2)

/-- Embedding of PyObject_CallObject for the first-revision state. -/
def rev1_callObject (host : Host) (w : Word) (args : List Int)
    (s : Rev1State) : Option PyVal × Rev1State :=
  match w with
  | .obj h =>
    let s1 := { s with calls := (h, args) :: s.calls }
    match host.call h args s.err s.enabled with
    | .ok v en => (some v, { s1 with enabled := en })
    | .exn en => (none, { s1 with enabled := en, err := true })
    | .fatal => (none, { s1 with fatalErr := true })
  | _ => (none, { s with err := true })

/-- Embedding of the first-revision PyGCH_gc_disable: resolve gc.disable
into PyGCH_disable_o and invoke it.  On resolution failure the C source
executes a bare return statement in a PyObject *-returning function; the
model renders that unspecified result as NULL. -/
def rev1_gc_disable (host : Host) (s : Rev1State) : Option PyVal × Rev1State :=
  let r := rev1_gc_member_unique_import host "disable" s.disable_o s
  let s1 := { r.2.2 with disable_o := r.2.1 }
  if r.1 then rev1_callObject host s1.disable_o [] s1
  else (none, s1)

/-- Embedding of the first-revision PyGCH_gc_isenabled exactly as
written: it resolves the member named "disable" into PyGCH_isenabled_o
and then invokes the value of PyGCH_disable_o. -/
def rev1_PyGCH_gc_isenabled (host : Host) (s : Rev1State) :
    Option PyVal × Rev1State :=
  let r := rev1_gc_member_unique_import host "disable" s.isenabled_o s
  let s1 := { r.2.2 with isenabled_o := r.2.1 }
  if r.1 then rev1_callObject host s1.disable_o [] s1
  else (none, s1)

/-
  Concrete hosts.
-/

/-- Handle of the imported gc module in the concrete hosts. -/
def hModule : Nat := 100

/-- Handle of gc.enable in the concrete hosts. -/
def hEnable : Nat := 101

/-- Handle of gc.disable in the concrete hosts. -/
def hDisable : Nat := 102

/-- Handle of gc.isenabled in the concrete hosts. -/
def hIsenabled : Nat := 103

/-- Handle of gc.collect in the concrete hosts. -/
def hCollect : Nat := 104

/-- Handle of the flag attribute in the concrete flag hosts. -/
def hFlag : Nat := 105

/-- A healthy CPython host: gc imports, the four callables resolve, the
collector flag is set and cleared by enable and disable and reported by
isenabled, and gc.collect returns the unreachable count for a generation
in range, raises for a generation out of range, and aborts fatally when
invoked while the error indicator is set (the behavior the repository
README documents for gc_collect_with_callback). -/
def pyHealthy (counts : Int → Nat) : Host where
  modImport := some hModule
  getattr := fun name =>
    if name = "enable" then some hEnable
    else if name = "disable" then some hDisable
    else if name = "isenabled" then some hIsenabled
    else if name = "collect" then some hCollect
    else none
  intVal := fun _ => none
  call := fun h args errPending enabled =>
    if h = hCollect then
      if errPending then .fatal
      else
        match args with
        | [] => .ok (.vint (counts (-1))) enabled
        | [g] => if 0 ≤ g ∧ g ≤ 2 then .ok (.vint (counts g)) enabled
                 else .exn enabled
        | _ => .exn enabled
    else if h = hEnable then
      (if args = [] then .ok .vnone true else .exn enabled)
    else if h = hDisable then
      (if args = [] then .ok .vnone false else .exn enabled)
    else if h = hIsenabled then
      (if args = [] then .ok (.vbool enabled) enabled else .exn enabled)
    else .exn enabled

/-- A host exposing a single flag attribute named F whose integer value
is att (none models a non-integer attribute). -/
def flagHost (att : Option Int) : Host where
  modImport := some hModule
  getattr := fun name => if name = "F" then some hFlag else none
  intVal := fun h => if h = hFlag then att else none
  call := fun _ _ _ en => .exn en

/-- A dead host: the module import fails, as after interpreter teardown
or before initialization. -/
def deadHost : Host where
  modImport := none
  getattr := fun _ => none
  intVal := fun _ => none
  call := fun _ _ _ _ => .fatal

/-
  Reachable states of the binding table: every sequence of module
  resolutions, member resolutions, accessor calls, flag reads and
  invalidations, each step under an arbitrary host (hosts may differ
  across steps, which models interpreter restart).
-/

/-- Indices of the member-entry cells of the API table (the object-handle
cells paired with the accessor function pointers). -/
def memberIdx (i : Fin 16) : Prop :=
  i.val = 5 ∨ i.val = 7 ∨ i.val = 9 ∨ i.val = 11 ∨ i.val = 13

instance (i : Fin 16) : Decidable (memberIdx i) := by
  unfold memberIdx; infer_instance

/-- One step of the shim: any exported operation under any host. -/
inductive Step : APIState → APIState → Prop where
  | unique (host : Host) (s : APIState) :
      Step s (gc_unique_import host s).2
  | member (host : Host) (name : String) (i : Fin 16) (hi : memberIdx i)
      (s : APIState) : Step s (gc_member_unique_import host name i s).2
  | enable (host : Host) (s : APIState) : Step s (gc_enable host s).2
  | disable (host : Host) (s : APIState) : Step s (gc_disable host s).2
  | isenabled (host : Host) (s : APIState) : Step s (gc_isenabled host s).2
  | collect (host : Host) (gen : Int) (s : APIState) :
      Step s (gc_collect_gen host gen s).2
  | collectN (host : Host) (gen : Int) (s : APIState) :
      Step s (gc_COLLECT_GEN host gen s).2
  | getflag (host : Host) (name : String) (s : APIState) :
      Step s (gc_get_flag host name 15 s).2
  | finalize (r : Int) (s : APIState) : Step s (finalizeEx r s).2

/-- States of the binding table reachable from module load. -/
def Reachable (s : APIState) : Prop :=
  Relation.ReflTransGen Step initState s

/-- Module-first invariant of a table: if the module cell is NULL then
every member-entry cell is NULL. -/
def TableInv (t : Fin 16 → Word) : Prop :=
  isNull (t 0) = true → ∀ i : Fin 16, memberIdx i → isNull (t i) = true

/-- The five-call round trip of property P4: isenabled, disable,
isenabled, enable, isenabled, returning the five results in order. -/
def roundTrip (host : Host) (s : APIState) : List (Option PyVal) :=
  let p1 := gc_isenabled host s
  let p2 := gc_disable host p1.2
  let p3 := gc_isenabled host p2.2
  let p4 := gc_enable host p3.2
  let p5 := gc_isenabled host p4.2
  [p1.1, p2.1, p3.1, p4.1, p5.1]

/-
  Basic lemmas about the embedded operations.
-/

/-- A nonzero integer cell is not NULL. -/
theorem isNull_num_ne (v : Nat) (hv : v ≠ 0) : isNull (Word.num v) = false := by
  cases v with
  | zero => exact absurd rfl hv
  | succ n => rfl

/-- A member-entry index is neither the module cell nor the flag cell. -/
theorem memberIdx_ne (i : Fin 16) (hi : memberIdx i) : i ≠ 0 ∧ i ≠ 15 := by
  rcases hi with h | h | h | h | h <;>
    exact ⟨by intro he; rw [he] at h; exact absurd h (by decide),
           by intro he; rw [he] at h; exact absurd h (by decide)⟩

/-- With the module cell already resolved, gc_unique_import is a no-op
reporting success. -/
theorem gc_unique_import_noop (host : Host) (s : APIState)
    (h0 : isNull (s.table 0) = false) : gc_unique_import host s = (true, s) := by
  unfold gc_unique_import
  simp [h0]

/-- When gc_unique_import reports success, the module cell of the
resulting state is non-NULL. -/
theorem gc_unique_import_mod (host : Host) (s : APIState)
    (h : (gc_unique_import host s).1 = true) :
    isNull ((gc_unique_import host s).2.table 0) = false := by
  have he : (gc_unique_import host s).1
      = !(isNull ((gc_unique_import host s).2.table 0)) := rfl
  rw [he] at h
  cases hb : isNull ((gc_unique_import host s).2.table 0) with
  | false => rfl
  | true => rw [hb] at h; exact absurd h (by decide)

/-- With the module cell and the destination cell both resolved,
gc_member_unique_import is a no-op reporting success: no attribute
lookup, no state change, cached handle untouched. -/
theorem gc_member_unique_import_noop (host : Host) (name : String)
    (i : Fin 16) (s : APIState) (h0 : isNull (s.table 0) = false)
    (hi : isNull (s.table i) = false) :
    gc_member_unique_import host name i s = (true, s) := by
  unfold gc_member_unique_import
  rw [gc_unique_import_noop host s h0]
  simp [hi]

/-- With the module resolved, the destination cell NULL and the host
attribute lookup succeeding, gc_member_unique_import performs exactly one
attribute lookup and stores the fresh handle. -/
theorem gc_member_unique_import_resolve (host : Host) (name : String)
    (i : Fin 16) (s : APIState) (hh0 : Nat) (h0 : isNull (s.table 0) = false)
    (hi : isNull (s.table i) = true) (hh : host.getattr name = some hh0) :
    gc_member_unique_import host name i s
      = (true, setSlot { s with attrLookups := s.attrLookups + 1 } i (.obj hh0)) := by
  unfold gc_member_unique_import
  rw [gc_unique_import_noop host s h0]
  simp [hi, hh]

/-- With nothing resolved yet and a host on which both the module import
and the attribute lookup succeed, gc_member_unique_import resolves the
module and then the member, performing exactly one attribute lookup. -/
theorem gc_member_unique_import_fresh (host : Host) (name : String)
    (i : Fin 16) (s : APIState) (m hh0 : Nat) (h0 : isNull (s.table 0) = true)
    (hm : host.modImport = some m) (hne : i ≠ 0)
    (hi : isNull (s.table i) = true) (hh : host.getattr name = some hh0) :
    gc_member_unique_import host name i s
      = (true, setSlot { setSlot s 0 (.obj m) with
          attrLookups := s.attrLookups + 1 } i (.obj hh0)) := by
  have hu : gc_unique_import host s = (true, setSlot s 0 (.obj m)) := by
    unfold gc_unique_import
    simp [h0, hm, setSlot, Function.update_same]
    rfl
  unfold gc_member_unique_import
  rw [hu]
  simp [setSlot, Function.update_noteq hne, hi, hh]

/-- With the module import failing and the module cell NULL,
gc_member_unique_import fails without touching any cell. -/
theorem gc_member_unique_import_dead (host : Host) (name : String)
    (i : Fin 16) (s : APIState) (hm : host.modImport = none)
    (h0 : isNull (s.table 0) = true) :
    gc_member_unique_import host name i s = (false, { s with err := true }) := by
  have hu : gc_unique_import host s = (false, { s with err := true }) := by
    unfold gc_unique_import
    simp [h0, hm]
  unfold gc_member_unique_import
  rw [hu]
  simp

/-- With the module resolved, the destination cell NULL and the host
attribute lookup failing, gc_member_unique_import fails after one
attribute lookup, leaving the destination cell NULL. -/
theorem gc_member_unique_import_getattr_fail (host : Host) (name : String)
    (i : Fin 16) (s : APIState) (h0 : isNull (s.table 0) = false)
    (hi : isNull (s.table i) = true) (hh : host.getattr name = none) :
    gc_member_unique_import host name i s
      = (false, { setSlot { s with attrLookups := s.attrLookups + 1 } i
          (.num 0) with err := true }) := by
  unfold gc_member_unique_import
  rw [gc_unique_import_noop host s h0]
  simp [hi, hh]

/-- With the module cell NULL but the module import succeeding,
gc_member_unique_import behaves exactly as it does on the state with the
module cell filled in. -/
theorem gc_member_unique_import_mod_then (host : Host) (name : String)
    (i : Fin 16) (s : APIState) (m : Nat) (h0 : isNull (s.table 0) = true)
    (hm : host.modImport = some m) :
    gc_member_unique_import host name i s
      = gc_member_unique_import host name i (setSlot s 0 (.obj m)) := by
  have hu : gc_unique_import host s = (true, setSlot s 0 (.obj m)) := by
    unfold gc_unique_import
    simp [h0, hm, setSlot, Function.update_same]
    rfl
  have hu2 : gc_unique_import host (setSlot s 0 (.obj m))
      = (true, setSlot s 0 (.obj m)) :=
    gc_unique_import_noop _ _ (by simp [setSlot, Function.update_same]; rfl)
  unfold gc_member_unique_import
  rw [hu, hu2]

/-- When gc_member_unique_import reports success on a state whose module
cell is already resolved, both the module cell and the destination cell
of the resulting state are non-NULL. -/
theorem gc_member_unique_import_success_aux (host : Host) (name : String)
    (i : Fin 16) (s : APIState) (h0 : isNull (s.table 0) = false)
    (h : (gc_member_unique_import host name i s).1 = true) :
    isNull ((gc_member_unique_import host name i s).2.table 0) = false
    ∧ isNull ((gc_member_unique_import host name i s).2.table i) = false := by
  cases hi : isNull (s.table i) with
  | false => rw [gc_member_unique_import_noop host name i s h0 hi]; exact ⟨h0, hi⟩
  | true =>
    cases hg : host.getattr name with
    | none => rw [gc_member_unique_import_getattr_fail host name i s h0 hi hg] at h; simp at h
    | some hh0 =>
      rw [gc_member_unique_import_resolve host name i s hh0 h0 hi hg]
      have hne : i ≠ 0 := by
        intro he
        rw [he] at hi
        rw [hi] at h0
        exact absurd h0 (by decide)
      constructor
      · simp [setSlot, Function.update_noteq (Ne.symm hne)]
        exact h0
      · simp [setSlot, Function.update_same]
        rfl

/-- When gc_member_unique_import reports success, both the module cell
and the destination cell of the resulting state are non-NULL. -/
theorem gc_member_unique_import_success (host : Host) (name : String)
    (i : Fin 16) (s : APIState)
    (h : (gc_member_unique_import host name i s).1 = true) :
    isNull ((gc_member_unique_import host name i s).2.table 0) = false
    ∧ isNull ((gc_member_unique_import host name i s).2.table i) = false := by
  cases h0 : isNull (s.table 0) with
  | false => exact gc_member_unique_import_success_aux host name i s h0 h
  | true =>
    cases hm : host.modImport with
    | none => rw [gc_member_unique_import_dead host name i s hm h0] at h; simp at h
    | some m =>
      rw [gc_member_unique_import_mod_then host name i s m h0 hm] at h ⊢
      refine gc_member_unique_import_success_aux host name i _ ?_ h
      simp [setSlot, Function.update_same]
      rfl

/-- Invoking a callable never changes the API table. -/
theorem callObject_table (host : Host) (w : Word) (args : List Int)
    (s : APIState) : (callObject host w args s).2.table = s.table := by
  unfold callObject
  cases w with
  | num v => rfl
  | fn n => rfl
  | obj h => cases hc : host.call h args s.err s.enabled <;> simp [hc]

/-- Invoking a resolved callable logs exactly that invocation. -/
theorem callObject_calls_obj (host : Host) (h : Nat) (args : List Int)
    (s : APIState) :
    (callObject host (.obj h) args s).2.calls = (h, args) :: s.calls := by
  unfold callObject
  cases hc : host.call h args s.err s.enabled <;> simp [hc]

/-- The table after gc_enable is the table after its member resolution. -/
theorem gc_enable_table (host : Host) (s : APIState) :
    (gc_enable host s).2.table
      = (gc_member_unique_import host "enable" 5 s).2.table := by
  unfold gc_enable
  rcases hr : gc_member_unique_import host "enable" 5 s with ⟨b, s1⟩
  cases b with
  | true => simp [callObject_table]
  | false => simp

/-- The table after gc_disable is the table after its member resolution. -/
theorem gc_disable_table (host : Host) (s : APIState) :
    (gc_disable host s).2.table
      = (gc_member_unique_import host "disable" 7 s).2.table := by
  unfold gc_disable
  rcases hr : gc_member_unique_import host "disable" 7 s with ⟨b, s1⟩
  cases b with
  | true => simp [callObject_table]
  | false => simp

/-- The table after gc_isenabled is the table after its member
resolution. -/
theorem gc_isenabled_table (host : Host) (s : APIState) :
    (gc_isenabled host s).2.table
      = (gc_member_unique_import host "isenabled" 9 s).2.table := by
  unfold gc_isenabled
  rcases hr : gc_member_unique_import host "isenabled" 9 s with ⟨b, s1⟩
  cases b with
  | true => simp [callObject_table]
  | false => simp

/-- The table after gc_collect_gen is the table after its member
resolution. -/
theorem gc_collect_gen_table (host : Host) (gen : Int) (s : APIState) :
    (gc_collect_gen host gen s).2.table
      = (gc_member_unique_import host "collect" 11 s).2.table := by
  unfold gc_collect_gen
  rcases hr : gc_member_unique_import host "collect" 11 s with ⟨b, s1⟩
  cases b with
  | true => by_cases hg : gen = -1 <;> simp [hg, callObject_table]
  | false => simp

/-- The table after gc_COLLECT_GEN is the table after gc_collect_gen. -/
theorem gc_COLLECT_GEN_table (host : Host) (gen : Int) (s : APIState) :
    (gc_COLLECT_GEN host gen s).2.table
      = (gc_collect_gen host gen s).2.table := by
  unfold gc_COLLECT_GEN
  rcases hr : gc_collect_gen host gen s with ⟨r, s1⟩
  cases r with
  | none => rfl
  | some v => cases v <;> rfl

/-- Equation for the fast path of gc_get_flag: a non-NULL cell is
returned as a value with no state change at all. -/
theorem gc_get_flag_fast (host : Host) (name : String) (i : Fin 16)
    (s : APIState) (hn : isNull (s.table i) = false) :
    gc_get_flag host name i s = (wordVal (s.table i), s) := by
  unfold gc_get_flag
  simp [hn]

/-- Equation for gc_get_flag when the member resolution fails. -/
theorem gc_get_flag_member_fail (host : Host) (name : String) (i : Fin 16)
    (s : APIState) (hn : isNull (s.table i) = true)
    (hb : (gc_member_unique_import host name i s).1 = false) :
    gc_get_flag host name i s = (0, (gc_member_unique_import host name i s).2) := by
  unfold gc_get_flag
  simp [hn, hb]

/-- Equation for gc_get_flag when resolution succeeds on an integer
attribute whose masked decode equals the error sentinel: the handle is
released, the cell reset to NULL, and the failure indicator returned. -/
theorem gc_get_flag_success_sentinel (host : Host) (name : String)
    (i : Fin 16) (s : APIState) (hh : Nat) (v : Int)
    (hn : isNull (s.table i) = true)
    (hb : (gc_member_unique_import host name i s).1 = true)
    (h15 : (gc_member_unique_import host name i s).2.table i = Word.obj hh)
    (hv : host.intVal hh = some v)
    (hmax : (v % (2 ^ 64 : Int)).toNat = ULMAX) :
    gc_get_flag host name i s
      = (0, setSlot { (gc_member_unique_import host name i s).2 with
          released := hh :: (gc_member_unique_import host name i s).2.released }
          i (.num 0)) := by
  unfold gc_get_flag
  have hmax2 : (v % (18446744073709551616 : Int)).toNat = ULMAX := by
    norm_num at hmax
    exact hmax
  simp [hn, hb, h15, hv, hmax2]

/-- Equation for gc_get_flag when resolution succeeds on an integer
attribute whose masked decode differs from the sentinel: the handle is
released and the decoded value is both stored in the cell and
returned. -/
theorem gc_get_flag_success_value (host : Host) (name : String)
    (i : Fin 16) (s : APIState) (hh : Nat) (v : Int)
    (hn : isNull (s.table i) = true)
    (hb : (gc_member_unique_import host name i s).1 = true)
    (h15 : (gc_member_unique_import host name i s).2.table i = Word.obj hh)
    (hv : host.intVal hh = some v)
    (hmax : (v % (2 ^ 64 : Int)).toNat ≠ ULMAX) :
    gc_get_flag host name i s
      = ((v % (2 ^ 64 : Int)).toNat,
         setSlot (setSlot { (gc_member_unique_import host name i s).2 with
           released := hh :: (gc_member_unique_import host name i s).2.released }
           i (.num 0)) i (.num ((v % (2 ^ 64 : Int)).toNat))) := by
  unfold gc_get_flag
  have hmax2 : (v % (18446744073709551616 : Int)).toNat ≠ ULMAX := by
    norm_num at hmax
    exact hmax
  simp [hn, hb, h15, hv, hmax2]

/-- Equation for gc_get_flag when resolution succeeds but the attribute
is not an integer: the masking conversion yields the sentinel with the
error indicator set, the handle is released, the cell reset to NULL, and
the failure indicator returned. -/
theorem gc_get_flag_success_nonint (host : Host) (name : String)
    (i : Fin 16) (s : APIState) (hh : Nat)
    (hn : isNull (s.table i) = true)
    (hb : (gc_member_unique_import host name i s).1 = true)
    (h15 : (gc_member_unique_import host name i s).2.table i = Word.obj hh)
    (hv : host.intVal hh = none) :
    gc_get_flag host name i s
      = (0, setSlot { (gc_member_unique_import host name i s).2 with
          err := true,
          released := hh :: (gc_member_unique_import host name i s).2.released }
          i (.num 0)) := by
  unfold gc_get_flag
  simp [hn, hb, h15, hv]

/-- A table whose module cell is non-NULL satisfies the module-first
invariant vacuously. -/
theorem tableInv_of_mod (t : Fin 16 → Word) (h0 : isNull (t 0) = false) :
    TableInv t := by
  intro hnull
  rw [h0] at hnull
  exact absurd hnull (by decide)

/-- gc_unique_import preserves the module-first invariant. -/
theorem tableInv_unique (host : Host) (s : APIState) (h : TableInv s.table) :
    TableInv (gc_unique_import host s).2.table := by
  cases h0 : isNull (s.table 0) with
  | false => rw [gc_unique_import_noop host s h0]; exact h
  | true =>
    cases hm : host.modImport with
    | none =>
      have hu : gc_unique_import host s = (false, { s with err := true }) := by
        unfold gc_unique_import
        simp [h0, hm]
      rw [hu]
      exact h
    | some m =>
      have hu : gc_unique_import host s = (true, setSlot s 0 (.obj m)) := by
        unfold gc_unique_import
        simp [h0, hm, setSlot, Function.update_same]
        rfl
      rw [hu]
      exact tableInv_of_mod _ (by simp [setSlot, Function.update_same]; rfl)

/-- gc_member_unique_import preserves the module-first invariant when
the module cell is already resolved (it then holds vacuously). -/
theorem tableInv_member_aux (host : Host) (name : String) (i : Fin 16)
    (s : APIState) (h0 : isNull (s.table 0) = false) :
    TableInv (gc_member_unique_import host name i s).2.table := by
  cases hi : isNull (s.table i) with
  | false =>
    rw [gc_member_unique_import_noop host name i s h0 hi]
    exact tableInv_of_mod _ h0
  | true =>
    have hne : i ≠ 0 := by
      intro he
      rw [he] at hi
      rw [hi] at h0
      exact absurd h0 (by decide)
    cases hg : host.getattr name with
    | some hh0 =>
      rw [gc_member_unique_import_resolve host name i s hh0 h0 hi hg]
      refine tableInv_of_mod _ ?_
      simp [setSlot, Function.update_noteq (Ne.symm hne)]
      exact h0
    | none =>
      rw [gc_member_unique_import_getattr_fail host name i s h0 hi hg]
      refine tableInv_of_mod _ ?_
      simp [setSlot, Function.update_noteq (Ne.symm hne)]
      exact h0

/-- gc_member_unique_import preserves the module-first invariant. -/
theorem tableInv_member (host : Host) (name : String) (i : Fin 16)
    (s : APIState) (h : TableInv s.table) :
    TableInv (gc_member_unique_import host name i s).2.table := by
  cases h0 : isNull (s.table 0) with
  | false => exact tableInv_member_aux host name i s h0
  | true =>
    cases hm : host.modImport with
    | none =>
      rw [gc_member_unique_import_dead host name i s hm h0]
      exact h
    | some m =>
      rw [gc_member_unique_import_mod_then host name i s m h0 hm]
      exact tableInv_member_aux host name i _
        (by simp [setSlot, Function.update_same]; rfl)

/-- gc_get_flag on the flag cell preserves the module-first invariant. -/
theorem tableInv_getflag (host : Host) (name : String) (s : APIState)
    (h : TableInv s.table) : TableInv (gc_get_flag host name 15 s).2.table := by
  cases hn : isNull (s.table 15) with
  | false => rw [gc_get_flag_fast host name 15 s hn]; exact h
  | true =>
    cases hb : (gc_member_unique_import host name 15 s).1 with
    | false =>
      rw [gc_get_flag_member_fail host name 15 s hn hb]
      exact tableInv_member host name 15 s h
    | true =>
      have hs := gc_member_unique_import_success host name 15 s hb
      cases hm15 : (gc_member_unique_import host name 15 s).2.table 15 with
      | obj hh =>
        cases hv : host.intVal hh with
        | some v =>
          by_cases hmax : (v % (2 ^ 64 : Int)).toNat = ULMAX
          · rw [gc_get_flag_success_sentinel host name 15 s hh v hn hb hm15 hv hmax]
            refine tableInv_of_mod _ ?_
            simp [setSlot, Function.update_noteq (by decide : (0 : Fin 16) ≠ 15)]
            exact hs.1
          · rw [gc_get_flag_success_value host name 15 s hh v hn hb hm15 hv hmax]
            refine tableInv_of_mod _ ?_
            simp [setSlot, Function.update_noteq (by decide : (0 : Fin 16) ≠ 15)]
            exact hs.1
        | none =>
          rw [gc_get_flag_success_nonint host name 15 s hh hn hb hm15 hv]
          refine tableInv_of_mod _ ?_
          simp [setSlot, Function.update_noteq (by decide : (0 : Fin 16) ≠ 15)]
          exact hs.1
      | num v =>
        have hfl : gc_get_flag host name 15 s
            = (0, (gc_member_unique_import host name 15 s).2) := by
          unfold gc_get_flag
          simp [hn, hb, hm15]
        rw [hfl]
        exact tableInv_member host name 15 s h
      | fn nm =>
        have hfl : gc_get_flag host name 15 s = (0, (gc_member_unique_import host name 15 s).2) := by
          unfold gc_get_flag
          simp [hn, hb, hm15]
        rw [hfl]
        exact tableInv_member host name 15 s h

/-- The teardown invalidation establishes the module-first invariant
outright. -/
theorem tableInv_nullify (s : APIState) : TableInv (nullifyAPI s).table := by
  intro hnull i hi
  rcases hi with h | h | h | h | h <;> simp [nullifyAPI, h, isNull]

/-- Every shim operation preserves the module-first invariant. -/
theorem step_tableInv {s t : APIState} (hst : Step s t)
    (h : TableInv s.table) : TableInv t.table := by
  cases hst with
  | unique host => exact tableInv_unique host s h
  | member host name i hi => exact tableInv_member host name i s h
  | enable host =>
    rw [gc_enable_table host s]
    exact tableInv_member host "enable" 5 s h
  | disable host =>
    rw [gc_disable_table host s]
    exact tableInv_member host "disable" 7 s h
  | isenabled host =>
    rw [gc_isenabled_table host s]
    exact tableInv_member host "isenabled" 9 s h
  | collect host gen =>
    rw [gc_collect_gen_table host gen s]
    exact tableInv_member host "collect" 11 s h
  | collectN host gen =>
    rw [gc_COLLECT_GEN_table host gen s, gc_collect_gen_table host gen s]
    exact tableInv_member host "collect" 11 s h
  | getflag host name => exact tableInv_getflag host name s h
  | finalize r => exact tableInv_nullify s

/-- Every reachable state of the binding table satisfies the
module-first invariant. -/
theorem reachable_tableInv (s : APIState) (h : Reachable s) :
    TableInv s.table := by
  induction h with
  | refl =>
    intro h0 i hi
    rcases hi with h | h | h | h | h <;> simp [initState, initTable, h, isNull]
  | tail hab hbc ih => exact step_tableInv hbc ih

/-- The cells that _PyGCH_NULLIFY_API resets read as NULL afterwards. -/
theorem nullifyAPI_table_mem (s : APIState) (i : Fin 16)
    (h : i.val = 0 ∨ i.val = 5 ∨ i.val = 7 ∨ i.val = 9 ∨ i.val = 11 ∨ i.val = 13) :
    (nullifyAPI s).table i = Word.num 0 := by
  simp [nullifyAPI, h]

/-- Every cell that _PyGCH_NULLIFY_API does not reset is untouched. -/
theorem nullifyAPI_table_other (s : APIState) (i : Fin 16)
    (h : ¬(i.val = 0 ∨ i.val = 5 ∨ i.val = 7 ∨ i.val = 9 ∨ i.val = 11 ∨ i.val = 13)) :
    (nullifyAPI s).table i = s.table i := by
  simp [nullifyAPI, h]

/-- When gc_member_unique_import fails on a NULL destination cell with
the module already resolved, the destination cell reads NULL. -/
theorem gc_member_unique_import_fail_slot_aux (host : Host) (name : String)
    (i : Fin 16) (s : APIState) (h0 : isNull (s.table 0) = false)
    (hn : isNull (s.table i) = true)
    (hb : (gc_member_unique_import host name i s).1 = false) :
    (gc_member_unique_import host name i s).2.table i = Word.num 0 := by
  cases hg : host.getattr name with
  | some hh0 =>
    rw [gc_member_unique_import_resolve host name i s hh0 h0 hn hg] at hb
    simp at hb
  | none =>
    rw [gc_member_unique_import_getattr_fail host name i s h0 hn hg]
    simp [setSlot, Function.update_same]

/-- When gc_member_unique_import fails on a NULL destination cell, the
destination cell afterwards is either untouched or NULL; it never holds
an object handle. -/
theorem gc_member_unique_import_fail_slot (host : Host) (name : String)
    (i : Fin 16) (s : APIState) (hn : isNull (s.table i) = true)
    (hb : (gc_member_unique_import host name i s).1 = false) :
    (gc_member_unique_import host name i s).2.table i = s.table i
    ∨ (gc_member_unique_import host name i s).2.table i = Word.num 0 := by
  cases h0 : isNull (s.table 0) with
  | false => exact Or.inr (gc_member_unique_import_fail_slot_aux host name i s h0 hn hb)
  | true =>
    cases hm : host.modImport with
    | none =>
      rw [gc_member_unique_import_dead host name i s hm h0]
      exact Or.inl rfl
    | some m =>
      rw [gc_member_unique_import_mod_then host name i s m h0 hm] at hb ⊢
      by_cases hi0 : i = 0
      · subst hi0
        rw [gc_member_unique_import_noop host name 0 _
          (by simp [setSlot, Function.update_same]; rfl)
          (by simp [setSlot, Function.update_same]; rfl)] at hb
        simp at hb
      · have hnn : isNull ((setSlot s 0 (.obj m)).table i) = true := by
          rw [show (setSlot s 0 (Word.obj m)).table i = s.table i from by
            simp [setSlot, Function.update_noteq hi0]]
          exact hn
        exact Or.inr (gc_member_unique_import_fail_slot_aux host name i _
          (by simp [setSlot, Function.update_same]; rfl) hnn hb)

/-- Resolution of the flag attribute on a flag host from the fresh
state: the module and the attribute resolve with one lookup, whatever
the attribute value is. -/
theorem flag_resolve (att : Option Int) :
    gc_member_unique_import (flagHost att) "F" 15 initState
      = (true, setSlot { setSlot initState 0 (.obj hModule) with
          attrLookups := 1 } 15 (.obj hFlag)) := rfl

/-
  Claim theorems.
-/

/-- Claim C1 (code_bug evidence): gc_collect_gen never clears the
ambient error indicator.  On a healthy host a first collect succeeds and
caches gc.collect; a second collect invoked while the error indicator is
pre-set reaches the underlying callable with the error still pending,
which the host model renders as the fatal interpreter abort that CPython
documents (and the repository README records).  Were the claimed
PyErr_Clear present immediately before the invocation, the fatal flag
could not be raised. -/
theorem gc_collect_gen_pending_error_crash :
    (gc_collect_gen (pyHealthy (fun _ => 0)) 0 initState).2.err = false
    ∧ isNull ((gc_collect_gen (pyHealthy (fun _ => 0)) 0 initState).2.table 11) = false
    ∧ (gc_collect_gen (pyHealthy (fun _ => 0)) 0
        { (gc_collect_gen (pyHealthy (fun _ => 0)) 0 initState).2 with
          err := true }).1 = none
    ∧ (gc_collect_gen (pyHealthy (fun _ => 0)) 0
        { (gc_collect_gen (pyHealthy (fun _ => 0)) 0 initState).2 with
          err := true }).2.fatalErr = true :=
  ⟨rfl, rfl, rfl, rfl⟩

/-- Claim C7 (code_bug evidence): under the second revision the shim
sequence isenabled, disable, isenabled, enable, isenabled on a healthy
host starting enabled reports enabled, succeeds, reports disabled,
succeeds, reports enabled, exactly as claimed; but the first-revision
PyGCH_gc_isenabled, one of the cited symbols, resolves the member named
"disable" into its cell and invokes the (still NULL) disable cell, so
its very first call fails with an error instead of reporting enabled,
and once disable has been called it silently disables the collector and
returns None instead of a boolean. -/
theorem gc_round_trip_and_rev1_isenabled_divergence :
    roundTrip (pyHealthy (fun _ => 0)) initState
      = [some (.vbool true), some .vnone, some (.vbool false),
         some .vnone, some (.vbool true)]
    ∧ (rev1_PyGCH_gc_isenabled (pyHealthy (fun _ => 0)) rev1Init).1 = none
    ∧ (rev1_PyGCH_gc_isenabled (pyHealthy (fun _ => 0)) rev1Init).2.err = true
    ∧ (rev1_PyGCH_gc_isenabled (pyHealthy (fun _ => 0)) rev1Init).2.isenabled_o
        = Word.obj hDisable
    ∧ (rev1_PyGCH_gc_isenabled (pyHealthy (fun _ => 0))
        (rev1_gc_disable (pyHealthy (fun _ => 0)) rev1Init).2).1 = some .vnone
    ∧ (rev1_PyGCH_gc_isenabled (pyHealthy (fun _ => 0))
        (rev1_gc_disable (pyHealthy (fun _ => 0)) rev1Init).2).2.enabled = false :=
  ⟨rfl, rfl, rfl, rfl, rfl, rfl⟩

/-- Claim C2: the wrapped teardown returns the real teardown status
unchanged, resets the module cell and every member-entry cell to NULL,
and a later member resolution on a live host performs a fresh attribute
lookup storing a fresh handle. -/
theorem finalizeEx_resets_bindings (s : APIState) (r : Int) :
    (finalizeEx r s).1 = r
    ∧ isNull ((finalizeEx r s).2.table 0) = true
    ∧ (∀ i : Fin 16, memberIdx i → isNull ((finalizeEx r s).2.table i) = true)
    ∧ (∀ (host : Host) (name : String) (i : Fin 16) (m hh0 : Nat),
        memberIdx i → host.modImport = some m → host.getattr name = some hh0 →
        (gc_member_unique_import host name i (finalizeEx r s).2).1 = true
        ∧ (gc_member_unique_import host name i (finalizeEx r s).2).2.table i
            = Word.obj hh0
        ∧ (gc_member_unique_import host name i (finalizeEx r s).2).2.attrLookups
            = (finalizeEx r s).2.attrLookups + 1) := by
  have h0 : isNull ((finalizeEx r s).2.table 0) = true := by
    show isNull ((nullifyAPI s).table 0) = true
    rw [nullifyAPI_table_mem s 0 (by decide)]
    rfl
  have hmem : ∀ i : Fin 16, memberIdx i →
      isNull ((finalizeEx r s).2.table i) = true := by
    intro i hi
    show isNull ((nullifyAPI s).table i) = true
    rw [nullifyAPI_table_mem s i (Or.inr hi)]
    rfl
  refine ⟨rfl, h0, hmem, ?_⟩
  intro host name i m hh0 hi hm hg
  have hne : i ≠ 0 := (memberIdx_ne i hi).1
  rw [gc_member_unique_import_fresh host name i _ m hh0 h0 hm hne (hmem i hi) hg]
  refine ⟨rfl, ?_, ?_⟩
  · simp [setSlot, Function.update_same]
  · simp [setSlot]

/-- Witness for finalizeEx_resets_bindings at a concrete teardown and a
healthy host. -/
theorem finalizeEx_resets_bindings_witness :
    (gc_member_unique_import (pyHealthy (fun _ => 0)) "enable" 5
        (finalizeEx 0 initState).2).1 = true :=
  ((finalizeEx_resets_bindings initState 0).2.2.2 (pyHealthy (fun _ => 0))
    "enable" 5 hModule hEnable (Or.inl rfl) rfl rfl).1

/-- Claim C3: in every reachable state of the binding table, a NULL
module cell forces every member-entry cell to be NULL; and while the
module import fails, gc_member_unique_import fails without populating
its cell and every member accessor fails. -/
theorem module_first_invariant :
    (∀ s : APIState, Reachable s → ∀ i : Fin 16, memberIdx i →
       isNull (s.table 0) = true → isNull (s.table i) = true)
    ∧ (∀ (host : Host) (name : String) (gen : Int) (i : Fin 16) (s : APIState),
        host.modImport = none → isNull (s.table 0) = true →
        gc_member_unique_import host name i s = (false, { s with err := true })
        ∧ (gc_enable host s).1 = none
        ∧ (gc_disable host s).1 = none
        ∧ (gc_isenabled host s).1 = none
        ∧ (gc_collect_gen host gen s).1 = none) := by
  constructor
  · intro s hreach i hi hnull
    exact reachable_tableInv s hreach hnull i hi
  · intro host name gen i s hm hnull
    have hmem : ∀ (nm : String) (j : Fin 16),
        gc_member_unique_import host nm j s = (false, { s with err := true }) :=
      fun nm j => gc_member_unique_import_dead host nm j s hm hnull
    refine ⟨hmem name i, ?_, ?_, ?_, ?_⟩
    · unfold gc_enable
      rw [hmem "enable" 5]
      simp
    · unfold gc_disable
      rw [hmem "disable" 7]
      simp
    · unfold gc_isenabled
      rw [hmem "isenabled" 9]
      simp
    · unfold gc_collect_gen
      rw [hmem "collect" 11]
      simp

/-- Witness for module_first_invariant at the initial state and the
dead host. -/
theorem module_first_invariant_witness :
    isNull (initState.table 5) = true
    ∧ (gc_enable deadHost initState).1 = none := by
  constructor
  · exact module_first_invariant.1 initState Relation.ReflTransGen.refl 5
      (Or.inl rfl) rfl
  · exact (module_first_invariant.2 deadHost "enable" 0 5 initState rfl rfl).2.1

/-- Claim C4: member resolution is idempotent.  On any reachable state
whose member-entry cell is populated, gc_member_unique_import reports
success and changes nothing at all (in particular it performs no new
attribute lookup and leaves the cached handle untouched); and after any
successful call, a second call, even under a different host, is a no-op
returning the same cached handle. -/
theorem gc_member_unique_import_idempotent :
    (∀ (host : Host) (name : String) (i : Fin 16) (s : APIState),
       memberIdx i → Reachable s → isNull (s.table i) = false →
       gc_member_unique_import host name i s = (true, s))
    ∧ (∀ (host host2 : Host) (name name2 : String) (i : Fin 16) (s : APIState),
       (gc_member_unique_import host name i s).1 = true →
       gc_member_unique_import host2 name2 i (gc_member_unique_import host name i s).2
         = (true, (gc_member_unique_import host name i s).2)) := by
  constructor
  · intro host name i s hi hreach hpop
    have h0 : isNull (s.table 0) = false := by
      cases h0 : isNull (s.table 0) with
      | false => rfl
      | true =>
        have hinv := reachable_tableInv s hreach h0 i hi
        rw [hpop] at hinv
        exact absurd hinv (by decide)
    exact gc_member_unique_import_noop host name i s h0 hpop
  · intro host host2 name name2 i s hb
    have hs := gc_member_unique_import_success host name i s hb
    exact gc_member_unique_import_noop host2 name2 i _ hs.1 hs.2

/-- Witness for gc_member_unique_import_idempotent on the state reached
by one successful resolution of gc.enable: the repeated call, even on a
dead host, is a no-op success. -/
theorem gc_member_unique_import_idempotent_witness :
    gc_member_unique_import deadHost "enable" 5
        (gc_member_unique_import (pyHealthy (fun _ => 0)) "enable" 5 initState).2
      = (true,
         (gc_member_unique_import (pyHealthy (fun _ => 0)) "enable" 5 initState).2) :=
  gc_member_unique_import_idempotent.1 deadHost "enable" 5
    (gc_member_unique_import (pyHealthy (fun _ => 0)) "enable" 5 initState).2
    (Or.inl rfl)
    (Relation.ReflTransGen.single
      (Step.member (pyHealthy (fun _ => 0)) "enable" 5 (Or.inl rfl) initState))
    (by decide)

/-- Claim C9: the teardown invalidation resets exactly the cells at
indices 0, 5, 7, 9, 11, 13 and leaves every other cell unchanged; in
particular a nonzero decoded flag cached in cell 15 survives teardown,
and gc_get_flag afterwards returns it through the fast path with no
state change whatsoever, under any host, resolved or dead. -/
theorem nullify_frame_effect :
    (∀ (s : APIState) (i : Fin 16),
       ((i.val = 0 ∨ i.val = 5 ∨ i.val = 7 ∨ i.val = 9 ∨ i.val = 11 ∨ i.val = 13) →
          (nullifyAPI s).table i = Word.num 0)
       ∧ (¬(i.val = 0 ∨ i.val = 5 ∨ i.val = 7 ∨ i.val = 9 ∨ i.val = 11 ∨ i.val = 13) →
          (nullifyAPI s).table i = s.table i))
    ∧ (∀ (host : Host) (name : String) (s : APIState) (v : Nat), v ≠ 0 →
        s.table 15 = Word.num v →
        gc_get_flag host name 15 (finalizeEx 0 s).2 = (v, (finalizeEx 0 s).2)) := by
  constructor
  · intro s i
    exact ⟨nullifyAPI_table_mem s i, nullifyAPI_table_other s i⟩
  · intro host name s v hv h15
    have ht : (nullifyAPI s).table 15 = Word.num v := by
      rw [nullifyAPI_table_other s 15 (by decide)]
      exact h15
    have hnn : isNull ((nullifyAPI s).table 15) = false := by
      rw [ht]
      exact isNull_num_ne v hv
    show gc_get_flag host name 15 (nullifyAPI s) = (v, nullifyAPI s)
    rw [gc_get_flag_fast host name 15 (nullifyAPI s) hnn, ht]
    rfl

/-- Witness for nullify_frame_effect: a flag value 7 cached in cell 15
survives teardown and is returned by the fast path on the dead host. -/
theorem nullify_frame_effect_witness :
    gc_get_flag deadHost "F" 15 (finalizeEx 0 (setSlot initState 15 (.num 7))).2
      = (7, (finalizeEx 0 (setSlot initState 15 (.num 7))).2) :=
  nullify_frame_effect.2 deadHost "F" (setSlot initState 15 (.num 7)) 7
    (by decide) (by decide)

/-- Claim C8: gc_collect_gen invokes the resolved collect callable with
no arguments exactly when the generation is -1 and with the single
integer argument gen otherwise, passing any generation through without
range validation of its own; on the healthy host every in-range call
returns the host unreachable count, which is nonnegative. -/
theorem gc_collect_gen_generation_semantics :
    (∀ (host : Host) (gen : Int) (s : APIState) (hc : Nat),
       (gc_member_unique_import host "collect" 11 s).1 = true →
       (gc_member_unique_import host "collect" 11 s).2.table 11 = Word.obj hc →
       (gc_collect_gen host gen s).2.calls
         = (hc, if gen = -1 then [] else [gen])
             :: (gc_member_unique_import host "collect" 11 s).2.calls)
    ∧ (∀ (counts : Int → Nat) (gen : Int), gen = -1 ∨ (0 ≤ gen ∧ gen ≤ 2) →
        (gc_collect_gen (pyHealthy counts) gen initState).1
          = some (.vint (counts gen))
        ∧ 0 ≤ (counts gen : Int)) := by
  constructor
  · intro host gen s hc hok h11
    unfold gc_collect_gen
    rcases hr : gc_member_unique_import host "collect" 11 s with ⟨b, s1⟩
    rw [hr] at hok h11
    have hok2 : b = true := by simpa using hok
    subst hok2
    have h11b : s1.table 11 = Word.obj hc := by simpa using h11
    by_cases hg : gen = -1 <;> simp [hg, h11b, callObject_calls_obj]
  · intro counts gen hgen
    refine ⟨?_, Int.natCast_nonneg _⟩
    rcases hgen with hg | ⟨hg0, hg2⟩
    · subst hg
      rfl
    · have hne : gen ≠ -1 := by omega
      have hres : gc_member_unique_import (pyHealthy counts) "collect" 11 initState
          = (true, setSlot { setSlot initState 0 (.obj hModule) with
              attrLookups := 1 } 11 (.obj hCollect)) := rfl
      have h11 : (setSlot { setSlot initState 0 (.obj hModule) with
          attrLookups := 1 } 11 (.obj hCollect)).table 11 = Word.obj hCollect := rfl
      unfold gc_collect_gen
      rw [hres]
      simp [hne, h11, callObject, pyHealthy, setSlot, initState, hg0, hg2]

/-- Witness for gc_collect_gen_generation_semantics: generation 333 is
passed through unvalidated as a one-argument call, and generation 0
returns the host count. -/
theorem gc_collect_gen_generation_semantics_witness :
    (gc_collect_gen (pyHealthy (fun _ => 0)) 333 initState).2.calls
      = (hCollect, [333])
          :: (gc_member_unique_import (pyHealthy (fun _ => 0)) "collect" 11
                initState).2.calls
    ∧ (gc_collect_gen (pyHealthy (fun _ => 0)) 0 initState).1 = some (.vint 0) := by
  constructor
  · have h := gc_collect_gen_generation_semantics.1 (pyHealthy (fun _ => 0)) 333
      initState hCollect rfl rfl
    simpa using h
  · have h := (gc_collect_gen_generation_semantics.2 (fun _ => 0) 0
      (Or.inr (by decide))).1
    simpa using h

/-- Claim C10: on every return of gc_get_flag the flag cell holds no
object reference: if the cell held no reference on entry it holds none
on exit, and on a cache miss whose resolution succeeds, the fetched
attribute handle is in the released log on exit and the cell ends up
NULL or a plain decoded integer. -/
theorem gc_get_flag_slot_no_reference :
    (∀ (host : Host) (name : String) (s : APIState),
       (∀ hh : Nat, s.table 15 ≠ Word.obj hh) →
       ∀ hh : Nat, (gc_get_flag host name 15 s).2.table 15 ≠ Word.obj hh)
    ∧ (∀ (host : Host) (name : String) (s : APIState) (hh : Nat),
       isNull (s.table 15) = true →
       (gc_member_unique_import host name 15 s).1 = true →
       (gc_member_unique_import host name 15 s).2.table 15 = Word.obj hh →
       hh ∈ (gc_get_flag host name 15 s).2.released
       ∧ ((gc_get_flag host name 15 s).2.table 15 = Word.num 0
          ∨ (gc_get_flag host name 15 s).2.table 15
              = Word.num (gc_get_flag host name 15 s).1)) := by
  constructor
  · intro host name s hno hh
    cases hn : isNull (s.table 15) with
    | false =>
      rw [gc_get_flag_fast host name 15 s hn]
      exact hno hh
    | true =>
      cases hb : (gc_member_unique_import host name 15 s).1 with
      | false =>
        rw [gc_get_flag_member_fail host name 15 s hn hb]
        rcases gc_member_unique_import_fail_slot host name 15 s hn hb with hl | hr
        · rw [hl]
          exact hno hh
        · rw [hr]
          simp
      | true =>
        cases hm15 : (gc_member_unique_import host name 15 s).2.table 15 with
        | obj hh2 =>
          cases hv : host.intVal hh2 with
          | some v =>
            by_cases hmax : (v % (2 ^ 64 : Int)).toNat = ULMAX
            · rw [gc_get_flag_success_sentinel host name 15 s hh2 v hn hb hm15 hv hmax]
              simp [setSlot, Function.update_same]
            · rw [gc_get_flag_success_value host name 15 s hh2 v hn hb hm15 hv hmax]
              simp [setSlot, Function.update_same]
          | none =>
            rw [gc_get_flag_success_nonint host name 15 s hh2 hn hb hm15 hv]
            simp [setSlot, Function.update_same]
        | num v =>
          have hfl : gc_get_flag host name 15 s
              = (0, (gc_member_unique_import host name 15 s).2) := by
            unfold gc_get_flag
            simp [hn, hb, hm15]
          rw [hfl, hm15]
          simp
        | fn nm =>
          have hfl : gc_get_flag host name 15 s
              = (0, (gc_member_unique_import host name 15 s).2) := by
            unfold gc_get_flag
            simp [hn, hb, hm15]
          rw [hfl, hm15]
          simp
  · intro host name s hh hn hb h15
    cases hv : host.intVal hh with
    | some v =>
      by_cases hmax : (v % (2 ^ 64 : Int)).toNat = ULMAX
      · rw [gc_get_flag_success_sentinel host name 15 s hh v hn hb h15 hv hmax]
        constructor
        · simp [setSlot]
        · left
          simp [setSlot, Function.update_same]
      · rw [gc_get_flag_success_value host name 15 s hh v hn hb h15 hv hmax]
        constructor
        · simp [setSlot]
        · right
          simp [setSlot, Function.update_same]
    | none =>
      rw [gc_get_flag_success_nonint host name 15 s hh hn hb h15 hv]
      constructor
      · simp [setSlot]
      · left
        simp [setSlot, Function.update_same]

/-- Witness for gc_get_flag_slot_no_reference on the flag host with
value 5: the fetched handle is released and the cell is a plain
integer. -/
theorem gc_get_flag_slot_no_reference_witness :
    (gc_get_flag (flagHost (some 5)) "F" 15 initState).2.table 15 ≠ Word.obj hFlag
    ∧ hFlag ∈ (gc_get_flag (flagHost (some 5)) "F" 15 initState).2.released := by
  constructor
  · exact gc_get_flag_slot_no_reference.1 (flagHost (some 5)) "F" initState
      (fun hh hc => Word.noConfusion hc) hFlag
  · exact (gc_get_flag_slot_no_reference.2 (flagHost (some 5)) "F" initState hFlag
      rfl rfl rfl).1

/-- Claim C5 counterexample input: a flag whose decoded value is zero is
written back to the cell as the integer 0 cast to void *, which is the
null pointer, so the cell stays NULL; the second call therefore misses
the cache and performs a second host attribute lookup instead of taking
the fast path. -/
theorem gc_get_flag_zero_flag_refetch_cex :
    (flagHost (some 0)).intVal hFlag = some 0
    ∧ (gc_get_flag (flagHost (some 0)) "F" 15 initState).1 = 0
    ∧ (gc_get_flag (flagHost (some 0)) "F" 15 initState).2.attrLookups = 1
    ∧ (gc_get_flag (flagHost (some 0)) "F" 15 initState).2.table 15 = Word.num 0
    ∧ (gc_get_flag (flagHost (some 0)) "F" 15
        (gc_get_flag (flagHost (some 0)) "F" 15 initState).2).2.attrLookups = 2 :=
  ⟨rfl, rfl, rfl, rfl, rfl⟩

/-- Claim C5 (amended): for every integer-valued flag, two successive
gc_get_flag calls return the identical value; when the decoded value is
nonzero and differs from the conversion sentinel, the second call takes
the cached fast path with no state change at all; when the decoded value
is zero the second call re-resolves the attribute with a fresh host
lookup. -/
theorem gc_get_flag_two_call_stability (v : Int) :
    (gc_get_flag (flagHost (some v)) "F" 15
        (gc_get_flag (flagHost (some v)) "F" 15 initState).2).1
      = (gc_get_flag (flagHost (some v)) "F" 15 initState).1
    ∧ ((v % (2 ^ 64 : Int)).toNat ≠ 0 → (v % (2 ^ 64 : Int)).toNat ≠ ULMAX →
        gc_get_flag (flagHost (some v)) "F" 15
            (gc_get_flag (flagHost (some v)) "F" 15 initState).2
          = ((v % (2 ^ 64 : Int)).toNat,
             (gc_get_flag (flagHost (some v)) "F" 15 initState).2))
    ∧ ((v % (2 ^ 64 : Int)).toNat = 0 →
        (gc_get_flag (flagHost (some v)) "F" 15
            (gc_get_flag (flagHost (some v)) "F" 15 initState).2).2.attrLookups
          = (gc_get_flag (flagHost (some v)) "F" 15 initState).2.attrLookups + 1) := by
  have hb1 : (gc_member_unique_import (flagHost (some v)) "F" 15 initState).1 = true := by
    rw [flag_resolve]
  have h151 : (gc_member_unique_import (flagHost (some v)) "F" 15 initState).2.table 15
      = Word.obj hFlag := by
    rw [flag_resolve]
    simp [setSlot, Function.update_same]
  have hv1 : (flagHost (some v)).intVal hFlag = some v := rfl
  have hs1 := gc_member_unique_import_success (flagHost (some v)) "F" 15 initState hb1
  by_cases hmax : (v % (2 ^ 64 : Int)).toNat = ULMAX
  · -- decoded value collides with the sentinel: both calls return 0
    have e1 := gc_get_flag_success_sentinel (flagHost (some v)) "F" 15 initState
      hFlag v rfl hb1 h151 hv1 hmax
    have hS15 : isNull ((gc_get_flag (flagHost (some v)) "F" 15 initState).2.table 15)
        = true := by
      rw [e1]
      simp [setSlot, Function.update_same, isNull]
    have hS0 : isNull ((gc_get_flag (flagHost (some v)) "F" 15 initState).2.table 0)
        = false := by
      rw [e1]
      simp [setSlot, Function.update_noteq (by decide : (0 : Fin 16) ≠ 15)]
      exact hs1.1
    have hres2 := gc_member_unique_import_resolve (flagHost (some v)) "F" 15
      (gc_get_flag (flagHost (some v)) "F" 15 initState).2 hFlag hS0 hS15 rfl
    have hbS : (gc_member_unique_import (flagHost (some v)) "F" 15
        (gc_get_flag (flagHost (some v)) "F" 15 initState).2).1 = true := by
      rw [hres2]
    have h15S : (gc_member_unique_import (flagHost (some v)) "F" 15
        (gc_get_flag (flagHost (some v)) "F" 15 initState).2).2.table 15
        = Word.obj hFlag := by
      rw [hres2]
      simp [setSlot, Function.update_same]
    have e2 := gc_get_flag_success_sentinel (flagHost (some v)) "F" 15
      (gc_get_flag (flagHost (some v)) "F" 15 initState).2 hFlag v hS15 hbS h15S hv1 hmax
    refine ⟨?_, ?_, ?_⟩
    · rw [e2, e1]
    · intro _ hnem
      exact absurd hmax hnem
    · intro hz
      rw [hz] at hmax
      exact absurd hmax.symm (by decide)
  · by_cases h0 : (v % (2 ^ 64 : Int)).toNat = 0
    · -- decoded value zero: the cell is written back as NULL, so the
      -- second call re-resolves
      have e1 := gc_get_flag_success_value (flagHost (some v)) "F" 15 initState
        hFlag v rfl hb1 h151 hv1 hmax
      rw [h0] at e1
      have hS15 : isNull ((gc_get_flag (flagHost (some v)) "F" 15 initState).2.table 15)
          = true := by
        rw [e1]
        simp [setSlot, Function.update_same, isNull]
      have hS0 : isNull ((gc_get_flag (flagHost (some v)) "F" 15 initState).2.table 0)
          = false := by
        rw [e1]
        simp [setSlot, Function.update_noteq (by decide : (0 : Fin 16) ≠ 15)]
        exact hs1.1
      have hres2 := gc_member_unique_import_resolve (flagHost (some v)) "F" 15
        (gc_get_flag (flagHost (some v)) "F" 15 initState).2 hFlag hS0 hS15 rfl
      have hbS : (gc_member_unique_import (flagHost (some v)) "F" 15
          (gc_get_flag (flagHost (some v)) "F" 15 initState).2).1 = true := by
        rw [hres2]
      have h15S : (gc_member_unique_import (flagHost (some v)) "F" 15
          (gc_get_flag (flagHost (some v)) "F" 15 initState).2).2.table 15
          = Word.obj hFlag := by
        rw [hres2]
        simp [setSlot, Function.update_same]
      have e2 := gc_get_flag_success_value (flagHost (some v)) "F" 15
        (gc_get_flag (flagHost (some v)) "F" 15 initState).2 hFlag v hS15 hbS h15S hv1 hmax
      rw [h0] at e2
      refine ⟨?_, ?_, ?_⟩
      · rw [e2, e1]
      · intro hnz _
        exact absurd h0 hnz
      · intro _
        rw [e2]
        simp [setSlot, hres2]
    · -- decoded value nonzero: the second call takes the fast path
      have e1 := gc_get_flag_success_value (flagHost (some v)) "F" 15 initState
        hFlag v rfl hb1 h151 hv1 hmax
      have hnB : isNull ((gc_get_flag (flagHost (some v)) "F" 15 initState).2.table 15)
          = false := by
        rw [e1]
        show isNull (Word.num ((v % (2 ^ 64 : Int)).toNat)) = false
        exact isNull_num_ne _ h0
      have e2 := gc_get_flag_fast (flagHost (some v)) "F" 15
        (gc_get_flag (flagHost (some v)) "F" 15 initState).2 hnB
      refine ⟨?_, ?_, fun hz => absurd hz h0⟩
      · rw [e2, e1]
        simp [setSlot, Function.update_same, wordVal]
      · intro _ _
        rw [e2, e1]
        simp [setSlot, Function.update_same, wordVal]

/-- Witness for gc_get_flag_two_call_stability at the flag value 2: the
second call is the identity on the state produced by the first. -/
theorem gc_get_flag_two_call_stability_witness :
    gc_get_flag (flagHost (some 2)) "F" 15
        (gc_get_flag (flagHost (some 2)) "F" 15 initState).2
      = (2, (gc_get_flag (flagHost (some 2)) "F" 15 initState).2) := by
  have h := (gc_get_flag_two_call_stability 2).2.1 (by decide) (by decide)
  have h2 : (((2 : Int)) % (2 ^ 64 : Int)).toNat = 2 := by decide
  rw [h2] at h
  exact h

/-- Claim C6 counterexample input: the attribute value -1 resolves
successfully and its masking decode is the well-defined value 2^64 - 1,
yet gc_get_flag returns the failure indicator 0 instead of the decoded
value, because the decoded value collides with the conversion error
sentinel. -/
theorem gc_get_flag_sentinel_decode_cex :
    (flagHost (some (-1))).getattr "F" = some hFlag
    ∧ (flagHost (some (-1))).intVal hFlag = some (-1)
    ∧ (((-1 : Int)) % (2 ^ 64 : Int)).toNat = ULMAX
    ∧ (gc_get_flag (flagHost (some (-1))) "F" 15 initState).1 = 0
    ∧ (0 : Nat) ≠ ULMAX :=
  ⟨rfl, rfl, by decide, rfl, by decide⟩

/-- Claim C6 (amended): gc_get_flag can fail while resolving the named
attribute, and additionally returns the failure indicator 0 when the
resolved attribute is not an integer or when its masked decode equals
the sentinel 2^64 - 1; for every resolved integer attribute whose masked
decode differs from the sentinel, the decode succeeds and the function
returns the decoded value with no error signaled. -/
theorem gc_get_flag_decode_success (v : Int)
    (hne : (v % (2 ^ 64 : Int)).toNat ≠ ULMAX) :
    (gc_get_flag (flagHost (some v)) "F" 15 initState).1
      = (v % (2 ^ 64 : Int)).toNat
    ∧ (gc_get_flag (flagHost (some v)) "F" 15 initState).2.err = false := by
  have hb1 : (gc_member_unique_import (flagHost (some v)) "F" 15 initState).1 = true := by
    rw [flag_resolve]
  have h151 : (gc_member_unique_import (flagHost (some v)) "F" 15 initState).2.table 15
      = Word.obj hFlag := by
    rw [flag_resolve]
    simp [setSlot, Function.update_same]
  have e1 := gc_get_flag_success_value (flagHost (some v)) "F" 15 initState
    hFlag v rfl hb1 h151 rfl hne
  constructor
  · rw [e1]
  · rw [e1, flag_resolve]
    simp [setSlot, initState]

/-- Witness for gc_get_flag_decode_success at the flag value 5. -/
theorem gc_get_flag_decode_success_witness :
    (gc_get_flag (flagHost (some 5)) "F" 15 initState).1 = 5 := by
  have h := (gc_get_flag_decode_success 5 (by decide)).1
  have h2 : (((5 : Int)) % (2 ^ 64 : Int)).toNat = 5 := by decide
  rw [h, h2]

end PyGCH

